import Mathlib

/-!
Shallow embedding of the intent execution lifecycle engine of
`packages/mock-server/src/state.ts` (class `MockState`) together with the
SSE watch handler of `packages/mock-server/src/handlers` (intent handlers),
and proofs of the lifecycle, invariant, control-surface and query-surface
properties stated about it.

Machine integers are modelled as `Nat` (timestamps) and the `Math.random()`
draw of the failure-injection policy as a rational number in `[0, 1)`;
string-valued fields keep their literal contents from the source.
-/

namespace Nexwave

/-- The `ExecutionState` enum of `packages/types/src/intent.ts`. -/
inductive ExecutionState where
  | PENDING
  | VALIDATING
  | PLANNING
  | SIMULATING
  | SUBMITTING
  | CONFIRMING
  | VERIFYING
  | COMPLETED
  | FAILED
  | CANCELLED
  | RETRYING
deriving DecidableEq, Repr

open ExecutionState

/-- The string name of a state, as serialised in the TypeScript source. -/
def stateName : ExecutionState → String
  | PENDING => "PENDING"
  | VALIDATING => "VALIDATING"
  | PLANNING => "PLANNING"
  | SIMULATING => "SIMULATING"
  | SUBMITTING => "SUBMITTING"
  | CONFIRMING => "CONFIRMING"
  | VERIFYING => "VERIFYING"
  | COMPLETED => "COMPLETED"
  | FAILED => "FAILED"
  | CANCELLED => "CANCELLED"
  | RETRYING => "RETRYING"

/-- `['COMPLETED', 'FAILED', 'CANCELLED'].includes(state)`, the terminal-state
test used by `kill` and by the watch handler. -/
def isTerminal (s : ExecutionState) : Bool :=
  s == COMPLETED || s == FAILED || s == CANCELLED

/-- An asset, as far as the engine reads it (`intent.output`). -/
structure Asset where
  symbol : String
  decimals : Nat
deriving DecidableEq, Repr

/-- One entry of a stored intent's `events` array. -/
structure TransitionEvent where
  stage : String
  type : String
  message : String
  timestamp : Nat
deriving DecidableEq, Repr

/-- The fabricated `outcome` attached on completion. -/
structure Outcome where
  success : Bool
  actualOutputAsset : Asset
  actualOutputAmount : String
  actualFees : String
  actualSlippageBps : Nat
  transactionId : String
deriving DecidableEq, Repr

/-- A `StoredIntent` record. The caller payload is opaque to the engine
except for `intent.output`, which is echoed into the fabricated outcome. -/
structure StoredIntent where
  id : String
  output : Asset
  state : ExecutionState
  events : List TransitionEvent
  createdAt : Nat
  completedAt : Option Nat
  outcome : Option Outcome
deriving DecidableEq, Repr

/-- The object passed to `notifyWatchers`: `{intentId, state, event, timestamp}`.
`event` is `events[events.length - 1]`, hence `Option` (JS indexing may yield
`undefined` on an empty array). -/
structure Notification where
  intentId : String
  state : ExecutionState
  event : Option TransitionEvent
  timestamp : Nat
deriving DecidableEq, Repr

/-- A `StoredAgent`, reduced to the fields the lifecycle claims touch. -/
inductive AgentStatus where
  | CREATED
  | STARTING
  | RUNNING
  | STOPPING
  | STOPPED
  | FAILED
deriving DecidableEq, Repr

structure StoredAgent where
  id : String
  status : AgentStatus
  stoppedAt : Option Nat
deriving DecidableEq, Repr

/-- The shared mutable state of the engine (class `MockState`): the intent
store (insertion-ordered, ids unique), the agent store, and the global
`paused` flag. Watch callbacks are modelled separately (`notifyWatchers`). -/
structure MockState where
  intents : List StoredIntent
  agents : List StoredAgent
  paused : Bool
deriving DecidableEq, Repr

-- ─── Intent store primitives ────────────────────────────────────────────────

/-- `this.intents.get(id)`. -/
def getIntent (e : MockState) (id : String) : Option StoredIntent :=
  e.intents.find? (fun r => r.id == id)

/-- Writing back a mutated record: in the JS source the record is mutated in
place, so the map keeps insertion order; here the entry with the same id is
replaced. -/
def setIntent (l : List StoredIntent) (r : StoredIntent) : List StoredIntent :=
  l.map (fun x => if x.id == r.id then r else x)

/-- The record built by `createIntent`: state `PENDING`, a single
`SUBMISSION`/`STARTED` event, `createdAt = now`. -/
def newIntentRecord (id : String) (output : Asset) (now : Nat) : StoredIntent :=
  { id := id
    output := output
    state := PENDING
    events := [⟨"SUBMISSION", "STARTED", "Intent received", now⟩]
    createdAt := now
    completedAt := none
    outcome := none }

/-- `createIntent(intent)`: stores a fresh record (id = supplied id or a fresh
uuid) and returns it; the asynchronous `simulateExecution` kick-off is
modelled separately. -/
def createIntent (e : MockState) (providedId : Option String) (freshId : String)
    (output : Asset) (now : Nat) : MockState × StoredIntent :=
  let r := newIntentRecord (providedId.getD freshId) output now
  ({ e with intents := e.intents ++ [r] }, r)

-- ─── Cancellation ───────────────────────────────────────────────────────────

/-- The mutation performed by `cancelIntent` once the record is found:
records in state `COMPLETED` or `FAILED` are returned untouched; otherwise
the record is moved to `CANCELLED`, `completedAt` is set, a cancellation
event is appended and one notification is issued. -/
def cancelBody (r : StoredIntent) (now : Nat) : StoredIntent × List Notification :=
  if r.state = COMPLETED ∨ r.state = FAILED then
    (r, [])
  else
    let ev : TransitionEvent := ⟨"SUBMISSION", "CANCELLED", "Intent cancelled by user", now⟩
    let r' := { r with state := CANCELLED, completedAt := some now, events := r.events ++ [ev] }
    (r', [⟨r.id, CANCELLED, some ev, now⟩])

/-- `cancelIntent(id)` at the engine level. -/
def cancelIntent (e : MockState) (id : String) (now : Nat) :
    MockState × Option StoredIntent × List Notification :=
  match getIntent e id with
  | none => (e, none, [])
  | some r =>
    let p := cancelBody r now
    ({ e with intents := setIntent e.intents p.1 }, some p.1, p.2)

-- ─── Lifecycle driver (`simulateExecution`) ─────────────────────────────────

/-- The fixed stage table of `simulateExecution`: state, message, delay. -/
def stageSpecs : List (ExecutionState × String × Nat) :=
  [ (VALIDATING, "Validating intent", 200)
  , (PLANNING, "Building execution plan", 300)
  , (SIMULATING, "Simulating transaction", 500)
  , (SUBMITTING, "Submitting to chain", 400)
  , (CONFIRMING, "Waiting for confirmation", 1000)
  , (VERIFYING, "Verifying outcome", 300) ]

/-- One iteration of the driver loop, after the stage delay has elapsed:
re-check cancellation, apply the 5% failure injection (never at
`VALIDATING`), else advance to the stage's state.  Returns the record, the
notifications issued, and whether the loop continues. -/
def stageBody (r : StoredIntent) (s : ExecutionState) (msg : String) (draw : ℚ)
    (now : Nat) : StoredIntent × List Notification × Bool :=
  if r.state = CANCELLED then
    (r, [], false)
  else if draw < mkRat 1 20 ∧ s ≠ VALIDATING then
    let ev : TransitionEvent :=
      ⟨stateName s, "FAILED", "Simulated failure at " ++ stateName s, now⟩
    let r' := { r with state := FAILED, completedAt := some now, events := r.events ++ [ev] }
    (r', [⟨r.id, FAILED, some ev, now⟩], false)
  else
    let ev : TransitionEvent := ⟨stateName s, "STATE_CHANGE", msg, now⟩
    let r' := { r with state := s, events := r.events ++ [ev] }
    (r', [⟨r.id, s, some ev, now⟩], true)

/-- The completion epilogue of `simulateExecution`: unless the record was
cancelled meanwhile, move to `COMPLETED`, fabricate a successful outcome,
append the completion event and notify. -/
def completeBody (r : StoredIntent) (now : Nat) : StoredIntent × List Notification :=
  if r.state = CANCELLED then
    (r, [])
  else
    let ev : TransitionEvent :=
      ⟨"VERIFICATION", "COMPLETED", "Execution completed successfully", now⟩
    let o : Outcome :=
      { success := true
        actualOutputAsset := r.output
        actualOutputAmount := "526180000000"
        actualFees := "5000"
        actualSlippageBps := 25
        transactionId := "mock-tx-" ++ r.id.take 8 }
    let r' :=
      { r with
        state := COMPLETED
        completedAt := some now
        outcome := some o
        events := r.events ++ [ev] }
    (r', [⟨r.id, COMPLETED, some ev, now⟩])

/-- The driver loop over the remaining stage specs.  `draws i` is the
`Math.random()` value drawn at loop iteration `i`; `t` is the current clock
tick, advanced by one per iteration.  The `Bool` is true when the loop ran
to completion (no early return). -/
def runLoop (draws : Nat → ℚ) :
    StoredIntent → List (ExecutionState × String × Nat) → Nat → Nat →
    StoredIntent × List Notification × Bool
  | r, [], _, _ => (r, [], true)
  | r, sp :: rest, i, t =>
    match stageBody r sp.1 sp.2.1 (draws i) t with
    | (r', ns, true) =>
      let p := runLoop draws r' rest (i + 1) (t + 1)
      (p.1, ns ++ p.2.1, p.2.2)
    | (r', ns, false) => (r', ns, false)

/-- `simulateExecution` on one record: run the loop over all six stages, then
the completion epilogue. -/
def simulateExecution (r : StoredIntent) (draws : Nat → ℚ) (t : Nat) :
    StoredIntent × List Notification :=
  let p := runLoop draws r stageSpecs 0 t
  if p.2.2 then
    let q := completeBody p.1 (t + stageSpecs.length)
    (q.1, p.2.1 ++ q.2)
  else
    (p.1, p.2.1)

/-- One driver stage applied at the engine level (the loop body re-reads the
record from the store each iteration).  Note that the body never reads
`e.paused`. -/
def stageStep (e : MockState) (id : String) (s : ExecutionState) (msg : String)
    (draw : ℚ) (now : Nat) : MockState × List Notification :=
  match getIntent e id with
  | none => (e, [])
  | some r =>
    let p := stageBody r s msg draw now
    ({ e with intents := setIntent e.intents p.1 }, p.2.1)

-- ─── Control surface ────────────────────────────────────────────────────────

def pause (e : MockState) : MockState := { e with paused := true }

def resume (e : MockState) : MockState := { e with paused := false }

def isPaused (e : MockState) : Bool := e.paused

/-- The per-intent sweep of `kill`: non-terminal records are moved to
`CANCELLED` with `completedAt` set — and nothing else: no event is appended
and no notification is issued. -/
def killOne (now : Nat) (r : StoredIntent) : StoredIntent :=
  if isTerminal r.state then r
  else { r with state := CANCELLED, completedAt := some now }

/-- The per-agent sweep of `kill`. -/
def stopIfRunning (now : Nat) (a : StoredAgent) : StoredAgent :=
  if a.status == AgentStatus.RUNNING then
    { a with status := AgentStatus.STOPPED, stoppedAt := some now }
  else a

/-- One iteration of `kill`'s intent loop, threading the store built so far
and the `executionsKilled` counter. -/
def killStep (now : Nat) (acc : List StoredIntent × Nat) (r : StoredIntent) :
    List StoredIntent × Nat :=
  if isTerminal r.state then (acc.1 ++ [r], acc.2)
  else (acc.1 ++ [{ r with state := CANCELLED, completedAt := some now }], acc.2 + 1)

/-- One iteration of `kill`'s agent loop, threading the `agentsStopped`
counter. -/
def stopStep (now : Nat) (acc : List StoredAgent × Nat) (a : StoredAgent) :
    List StoredAgent × Nat :=
  if a.status == AgentStatus.RUNNING then
    (acc.1 ++ [{ a with status := AgentStatus.STOPPED, stoppedAt := some now }], acc.2 + 1)
  else (acc.1 ++ [a], acc.2)

/-- `kill()`: sweep both stores with incrementing counters, returning
`(state', executionsKilled, agentsStopped)`.  The source body contains no
`events.push` and no `notifyWatchers` call. -/
def MockState.kill (e : MockState) (now : Nat) : MockState × Nat × Nat :=
  let pi := e.intents.foldl (killStep now) ([], 0)
  let pa := e.agents.foldl (stopStep now) ([], 0)
  ({ e with intents := pi.1, agents := pa.1 }, pi.2, pa.2)

-- ─── Query surface ──────────────────────────────────────────────────────────

/-- The intermediate ("executing") states counted by `getQueueStatus`. -/
def executingStates : List ExecutionState :=
  [VALIDATING, PLANNING, SIMULATING, SUBMITTING, CONFIRMING, VERIFYING]

structure QueueStatus where
  pendingIntents : Nat
  executingIntents : Nat
  runningAgents : Nat
  paused : Bool
deriving DecidableEq, Repr

/-- `getQueueStatus()`: full-scan counts. -/
def getQueueStatus (e : MockState) : QueueStatus :=
  { pendingIntents := e.intents.countP (fun i => i.state == PENDING)
    executingIntents := e.intents.countP (fun i => executingStates.contains i.state)
    runningAgents := e.agents.countP (fun a => a.status == AgentStatus.RUNNING)
    paused := e.paused }

/-- Stable insertion into a list sorted by `createdAt` descending. -/
def insertCreatedDesc (x : StoredIntent) : List StoredIntent → List StoredIntent
  | [] => [x]
  | y :: ys =>
    if y.createdAt ≤ x.createdAt then x :: y :: ys
    else y :: insertCreatedDesc x ys

/-- `results.sort((a, b) => b.createdAt - a.createdAt)`: stable sort by
`createdAt` descending. -/
def sortCreatedDesc : List StoredIntent → List StoredIntent
  | [] => []
  | x :: xs => insertCreatedDesc x (sortCreatedDesc xs)

/-- The filtered and sorted result list of `listIntents`, before slicing. -/
def listResults (e : MockState) (states : Option (List ExecutionState)) :
    List StoredIntent :=
  let results :=
    match states with
    | some ss => if ss.isEmpty then e.intents
                 else e.intents.filter (fun i => ss.contains i.state)
    | none => e.intents
  sortCreatedDesc results

/-- `listIntents(filters)`: slice `[start, start + limit)` of the sorted
results; `nextCursor = start + limit` exactly when that index is still
inside the result list. -/
def listIntents (e : MockState) (states : Option (List ExecutionState))
    (limit : Option Nat) (cursor : Option Nat) :
    List StoredIntent × Option Nat :=
  let results := listResults e states
  let lim := limit.getD 20
  let start := cursor.getD 0
  ( (results.drop start).take lim
  , if start + lim < results.length then some (start + lim) else none )

/-- `totalCount` as reported by `GET /api/v1/intents`: the length of the
returned page (`result.intents.length`). -/
def listTotalCount (e : MockState) (states : Option (List ExecutionState))
    (limit : Option Nat) (cursor : Option Nat) : Nat :=
  (listIntents e states limit cursor).1.length

-- ─── Subscription registry ──────────────────────────────────────────────────

/-- A registered watch callback: its registration index and whether invoking
it throws. -/
structure Watcher where
  wid : Nat
  throws : Bool
deriving DecidableEq, Repr

/-- `notifyWatchers(id, event)` is `watchers.forEach((cb) => cb(event))` on a
JS `Set`, which iterates in registration order; an exception thrown by a
callback propagates out of `forEach`, aborting the iteration.  Returns the
`(watcher id, event)` deliveries made, in order, and whether an exception
escaped. -/
def notifyWatchers : List Watcher → Notification → List (Nat × Notification) × Bool
  | [], _ => ([], false)
  | w :: ws, n =>
    if w.throws then ([(w.wid, n)], true)
    else
      let p := notifyWatchers ws n
      ((w.wid, n) :: p.1, p.2)

-- ─── Watch stream (SSE handler) ─────────────────────────────────────────────

inductive StreamItem where
  | msg (n : Notification)
  | done
deriving DecidableEq, Repr

/-- The snapshot event the watch handler writes first: the record's current
state and the last entry of its event log. -/
def snapshotOf (r : StoredIntent) (now : Nat) : Notification :=
  ⟨r.id, r.state, r.events.getLast?, now⟩

/-- The sequence of SSE frames written by `GET /api/v1/intents/:id/watch`:
first the snapshot; if the record is already terminal, a `[DONE]` marker and
nothing else; otherwise one frame per subsequent notification, with a
`[DONE]` marker immediately after any terminal-state notification. -/
def watchStream (r : StoredIntent) (subsequent : List Notification) (now : Nat) :
    List StreamItem :=
  StreamItem.msg (snapshotOf r now) ::
    (if isTerminal r.state then [StreamItem.done]
     else subsequent.flatMap (fun n =>
       if isTerminal n.state then [StreamItem.msg n, StreamItem.done]
       else [StreamItem.msg n]))

-- ─── Event-log/state consistency ────────────────────────────────────────────

/-- Whether a transition event is the one the engine records when entering
the given state. -/
def matchesState : ExecutionState → TransitionEvent → Bool
  | PENDING, e => e.stage == "SUBMISSION" && e.type == "STARTED"
  | CANCELLED, e => e.stage == "SUBMISSION" && e.type == "CANCELLED"
  | FAILED, e => e.type == "FAILED"
  | COMPLETED, e => e.stage == "VERIFICATION" && e.type == "COMPLETED"
  | RETRYING, _ => false
  | s, e => e.stage == stateName s && e.type == "STATE_CHANGE"

/-- The record invariant: the state is consistent with the last entry of the
event log. -/
def consistentB (r : StoredIntent) : Bool :=
  match r.events.getLast? with
  | some ev => matchesState r.state ev
  | none => false

-- ─── Observed state sequences ───────────────────────────────────────────────

/-- The sequence of states observed for an intent: its state at creation
followed by the state carried by each notification the driver publishes. -/
def observedStates (r0 : StoredIntent) (driverNotes : List Notification) :
    List ExecutionState :=
  r0.state :: driverNotes.map (·.state)

-- ─── Shared concrete fixtures ───────────────────────────────────────────────

def solAsset : Asset := ⟨"SOL", 9⟩

/-- A freshly created record (state `PENDING`, one `STARTED` event). -/
def sampleRecord : StoredIntent := newIntentRecord "a" solAsset 0

/-- An engine holding one freshly created intent. -/
def oneIntentEngine : MockState := { intents := [sampleRecord], agents := [], paused := false }

/-- The same engine with the global `paused` flag set. -/
def pausedEngine : MockState := { oneIntentEngine with paused := true }

/-- A record cancelled at tick 3 (terminal, consistent event log). -/
def cancelledRecord : StoredIntent := (cancelBody sampleRecord 3).1

/-- A record in state `COMPLETED` (only its `state` matters to `cancel`). -/
def completedRecord : StoredIntent :=
  { sampleRecord with state := COMPLETED, completedAt := some 9 }

def throwingWatcher : Watcher := ⟨0, true⟩

def quietWatcher : Watcher := ⟨1, false⟩

def sampleNote : Notification := ⟨"a", VALIDATING, none, 1⟩

/-- A terminal notification, as published on completion. -/
def doneNote : Notification := ⟨"a", COMPLETED, none, 2⟩

end Nexwave

namespace Nexwave

open ExecutionState

/-- C1: a created intent that is never cancelled or killed and whose random
draws all avoid the injected-failure branch is observed in exactly the
states PENDING, VALIDATING, PLANNING, SIMULATING, SUBMITTING, CONFIRMING,
VERIFYING, COMPLETED, in that order, and ends with a fabricated outcome
whose `success` flag is true. -/
theorem c1_success_path (id : String) (output : Asset) (t0 t : Nat) (draws : Nat → ℚ)
    (h : ∀ i, ¬ draws i < mkRat 1 20) :
    observedStates (newIntentRecord id output t0)
        (simulateExecution (newIntentRecord id output t0) draws t).2 =
      [PENDING, VALIDATING, PLANNING, SIMULATING, SUBMITTING, CONFIRMING, VERIFYING,
        COMPLETED]
    ∧ ∃ o, (simulateExecution (newIntentRecord id output t0) draws t).1.outcome = some o
        ∧ o.success = true := by
  simp [observedStates, simulateExecution, runLoop, stageSpecs, stageBody, completeBody,
    newIntentRecord, h 0, h 1, h 2, h 3, h 4, h 5]

/-- The constant draw 1 never falls below the failure threshold. -/
theorem one_draw_safe : ¬ (1 : ℚ) < mkRat 1 20 := by decide

/-- Witness for C1 at a concrete record and the constant draw 1. -/
theorem c1_success_path_witness :
    observedStates (newIntentRecord "a" solAsset 0)
        (simulateExecution (newIntentRecord "a" solAsset 0) (fun _ => 1) 1).2 =
      [PENDING, VALIDATING, PLANNING, SIMULATING, SUBMITTING, CONFIRMING, VERIFYING,
        COMPLETED]
    ∧ ∃ o, (simulateExecution (newIntentRecord "a" solAsset 0) (fun _ => 1) 1).1.outcome
          = some o
        ∧ o.success = true :=
  c1_success_path "a" solAsset 0 1 (fun _ => 1) (fun _ => one_draw_safe)

-- ─── C6: failure injection ──────────────────────────────────────────────────

/-- C6: at every stage except `VALIDATING`, a draw below 1/20 moves the
record directly to `FAILED` with a message naming the stage and stops the
driver (continue flag false); at `VALIDATING` the injected-failure branch is
unreachable, so the step never produces a `FAILED` record. -/
theorem c6_failure_injection :
    (∀ (r : StoredIntent) (s : ExecutionState) (msg : String) (draw : ℚ) (now : Nat),
      r.state ≠ CANCELLED → s ≠ VALIDATING → draw < mkRat 1 20 →
      stageBody r s msg draw now =
        ({ r with
            state := FAILED
            completedAt := some now
            events := r.events ++
              [⟨stateName s, "FAILED", "Simulated failure at " ++ stateName s, now⟩] },
         [⟨r.id, FAILED,
            some ⟨stateName s, "FAILED", "Simulated failure at " ++ stateName s, now⟩,
            now⟩],
         false))
    ∧ (∀ (r : StoredIntent) (msg : String) (draw : ℚ) (now : Nat),
        (stageBody r VALIDATING msg draw now).1.state ≠ FAILED) := by
  constructor
  · intro r s msg draw now hc hs hd
    simp [stageBody, hc, hs, hd]
  · intro r msg draw now
    by_cases hc : r.state = CANCELLED
    · simp [stageBody, hc]
    · simp [stageBody, hc]

/-- Witness for C6 at a concrete record, stage `PLANNING` and draw 0. -/
theorem c6_failure_injection_witness :
    stageBody sampleRecord PLANNING "m" 0 5 =
      ({ sampleRecord with
          state := FAILED
          completedAt := some 5
          events := sampleRecord.events ++
            [⟨stateName PLANNING, "FAILED", "Simulated failure at " ++ stateName PLANNING,
              5⟩] },
       [⟨sampleRecord.id, FAILED,
          some ⟨stateName PLANNING, "FAILED",
            "Simulated failure at " ++ stateName PLANNING, 5⟩, 5⟩],
       false)
    ∧ (stageBody sampleRecord VALIDATING "m" 0 5).1.state ≠ FAILED :=
  ⟨c6_failure_injection.1 sampleRecord PLANNING "m" 0 5 (by decide) (by decide) (by decide),
   c6_failure_injection.2 sampleRecord "m" 0 5⟩

end Nexwave
namespace Nexwave

open ExecutionState

-- ─── C3: pause is never consulted by the driver ─────────────────────────────

/-- C3 counterexample: with the engine paused and a freshly created intent in
state `PENDING`, one driver stage step (the first stage delay elapsing)
moves the intent to `VALIDATING` — its state does not stay unchanged while
paused. -/
theorem c3_counterexample :
    pausedEngine.paused = true
    ∧ (getIntent pausedEngine "a").map (fun r => r.state) = some PENDING
    ∧ ((stageStep pausedEngine "a" VALIDATING "Validating intent" 1 1).1.intents.map
        (fun r => r.state)) = [VALIDATING] := by
  decide

/-- Along the driver loop, if the incoming record is not cancelled and no
stage spec carries the `CANCELLED` state, then a completed loop leaves a
non-cancelled record and an early exit leaves a `FAILED` record. -/
theorem runLoop_terminal (draws : Nat → ℚ)
    (specs : List (ExecutionState × String × Nat)) :
    ∀ (r : StoredIntent) (i t : Nat), r.state ≠ CANCELLED →
      (∀ sp ∈ specs, sp.1 ≠ CANCELLED) →
      ((runLoop draws r specs i t).2.2 = true →
        (runLoop draws r specs i t).1.state ≠ CANCELLED)
      ∧ ((runLoop draws r specs i t).2.2 = false →
        (runLoop draws r specs i t).1.state = FAILED) := by
  induction specs with
  | nil =>
    intro r i t hr _
    simpa [runLoop] using hr
  | cons sp rest ih =>
    intro r i t hr hs
    have hrest : ∀ x ∈ rest, x.1 ≠ CANCELLED := fun x hx => hs x (List.mem_cons_of_mem _ hx)
    by_cases hfail : draws i < mkRat 1 20 ∧ sp.1 ≠ VALIDATING
    · simp [runLoop, stageBody, hr, hfail]
    · have hsp1 : sp.1 ≠ CANCELLED := hs sp (List.mem_cons_self _ _)
      have hnext := ih { r with state := sp.1, events := r.events ++ [⟨stateName sp.1, "STATE_CHANGE", sp.2.1, t⟩] } (i + 1) (t + 1) (by simpa using hsp1) hrest
      simpa [runLoop, stageBody, hr, hfail] using hnext

/-- A driver run started on a non-cancelled record always ends terminal:
either `COMPLETED` or `FAILED`. -/
theorem simulateExecution_terminal (r : StoredIntent) (draws : Nat → ℚ) (t : Nat)
    (h : r.state ≠ CANCELLED) :
    (simulateExecution r draws t).1.state = COMPLETED
    ∨ (simulateExecution r draws t).1.state = FAILED := by
  have hspecs : ∀ sp ∈ stageSpecs, sp.1 ≠ CANCELLED := by decide
  have hrl := runLoop_terminal draws stageSpecs r 0 t h hspecs
  by_cases hfin : (runLoop draws r stageSpecs 0 t).2.2 = true
  · left
    have hnc := hrl.1 hfin
    simp [simulateExecution, hfin, completeBody, hnc]
  · right
    have hf := hrl.2 (by simpa using hfin)
    simp [simulateExecution, hfin, hf]

end Nexwave

namespace Nexwave

open ExecutionState

/-- C3 corrected: `pause` sets the global flag, `resume` clears it, and the
flag is reported by `isPaused` and `getQueueStatus`; but the Lifecycle
Driver never consults it — a driver stage step has the same effect on the
intent store and emits the same notifications whatever the flag's value,
and a driver run on a non-cancelled record reaches a terminal state
(`COMPLETED` or `FAILED`) regardless of pausing. -/
theorem c3_pause_flag_only :
    (∀ e : MockState, (pause e).paused = true ∧ (resume e).paused = false
      ∧ isPaused e = e.paused ∧ (getQueueStatus e).paused = e.paused)
    ∧ (∀ (e : MockState) (b : Bool) (id : String) (s : ExecutionState) (msg : String)
        (draw : ℚ) (now : Nat),
        (stageStep { e with paused := b } id s msg draw now).1.intents =
          (stageStep e id s msg draw now).1.intents
        ∧ (stageStep { e with paused := b } id s msg draw now).2 =
          (stageStep e id s msg draw now).2)
    ∧ (∀ (r : StoredIntent) (draws : Nat → ℚ) (t : Nat), r.state ≠ CANCELLED →
        (simulateExecution r draws t).1.state = COMPLETED
        ∨ (simulateExecution r draws t).1.state = FAILED) := by
  refine ⟨fun e => ⟨rfl, rfl, rfl, rfl⟩, ?_,
    fun r draws t h => simulateExecution_terminal r draws t h⟩
  intro e b id s msg draw now
  have hg : getIntent { e with paused := b } id = getIntent e id := rfl
  simp only [stageStep, hg]
  cases h : getIntent e id <;> simp [h]

/-- Witness for C3 (corrected) at the paused one-intent engine. -/
theorem c3_pause_flag_only_witness :
    ((pause pausedEngine).paused = true ∧ (resume pausedEngine).paused = false
      ∧ isPaused pausedEngine = pausedEngine.paused
      ∧ (getQueueStatus pausedEngine).paused = pausedEngine.paused)
    ∧ ((stageStep { pausedEngine with paused := true } "a" VALIDATING "Validating intent"
          1 1).1.intents =
        (stageStep pausedEngine "a" VALIDATING "Validating intent" 1 1).1.intents
      ∧ (stageStep { pausedEngine with paused := true } "a" VALIDATING "Validating intent"
          1 1).2 =
        (stageStep pausedEngine "a" VALIDATING "Validating intent" 1 1).2)
    ∧ ((simulateExecution sampleRecord (fun _ => 1) 1).1.state = COMPLETED
        ∨ (simulateExecution sampleRecord (fun _ => 1) 1).1.state = FAILED) :=
  ⟨c3_pause_flag_only.1 pausedEngine,
   c3_pause_flag_only.2.1 pausedEngine true "a" VALIDATING "Validating intent" 1 1,
   c3_pause_flag_only.2.2 sampleRecord (fun _ => 1) 1 (by decide)⟩

-- ─── C8: notification delivery ──────────────────────────────────────────────

/-- C8 counterexample: with two subscribers registered in order, the first of
which throws, `notifyWatchers` delivers the event only to the first — the
throw does prevent delivery to the remaining callback. -/
theorem c8_counterexample :
    (notifyWatchers [throwingWatcher, quietWatcher] sampleNote).1.map Prod.fst = [0]
    ∧ (quietWatcher.wid, sampleNote) ∉
        (notifyWatchers [throwingWatcher, quietWatcher] sampleNote).1 := by
  decide

/-- C8 corrected: `notifyWatchers` invokes the callbacks synchronously in
registration order, and when no callback throws every registered callback
receives the event; but a callback that throws aborts the iteration, so the
callbacks registered after it receive nothing and the exception escapes. -/
theorem c8_notify_order :
    (∀ (ws : List Watcher) (n : Notification), (∀ w ∈ ws, w.throws = false) →
      notifyWatchers ws n = (ws.map (fun w => (w.wid, n)), false))
    ∧ (∀ (pre post : List Watcher) (w : Watcher) (n : Notification),
        (∀ x ∈ pre, x.throws = false) → w.throws = true →
        notifyWatchers (pre ++ w :: post) n =
          (pre.map (fun x => (x.wid, n)) ++ [(w.wid, n)], true)) := by
  constructor
  · intro ws n h
    induction ws with
    | nil => simp [notifyWatchers]
    | cons x xs ih =>
      have hx : x.throws = false := h x (List.mem_cons_self _ _)
      have hxs := ih (fun y hy => h y (List.mem_cons_of_mem _ hy))
      simp [notifyWatchers, hx, hxs]
  · intro pre post w n hpre hw
    induction pre with
    | nil => simp [notifyWatchers, hw]
    | cons x xs ih =>
      have hx : x.throws = false := hpre x (List.mem_cons_self _ _)
      have hxs := ih (fun y hy => hpre y (List.mem_cons_of_mem _ hy))
      simp [notifyWatchers, hx, hxs]

/-- Witness for C8 (corrected): a throw-free list is fully delivered, and a
throwing callback after one quiet callback cuts the iteration short. -/
theorem c8_notify_order_witness :
    notifyWatchers [quietWatcher] sampleNote =
      ([quietWatcher].map (fun w => (w.wid, sampleNote)), false)
    ∧ notifyWatchers ([quietWatcher] ++ throwingWatcher :: []) sampleNote =
      ([quietWatcher].map (fun x => (x.wid, sampleNote)) ++
        [(throwingWatcher.wid, sampleNote)], true) :=
  ⟨c8_notify_order.1 [quietWatcher] sampleNote (by decide),
   c8_notify_order.2 [quietWatcher] [] throwingWatcher sampleNote (by decide) (by decide)⟩

end Nexwave
namespace Nexwave

open ExecutionState

-- ─── kill: fold characterisation ────────────────────────────────────────────

/-- The intent loop of `kill` maps `killOne` over the store and counts the
non-terminal records. -/
theorem killStep_fold (now : Nat) :
    ∀ (l : List StoredIntent) (acc : List StoredIntent × Nat),
      (l.foldl (killStep now) acc).1 = acc.1 ++ l.map (killOne now)
      ∧ (l.foldl (killStep now) acc).2 =
          acc.2 + l.countP (fun r => !isTerminal r.state) := by
  intro l
  induction l with
  | nil => intro acc; simp
  | cons x xs ih =>
    intro acc
    by_cases hx : isTerminal x.state
    · have h := ih (acc.1 ++ [x], acc.2)
      simp only [List.foldl_cons, killStep, hx, if_true]
      simp [h.1, h.2, List.countP_cons, hx, killOne]
    · have h := ih (acc.1 ++ [{ x with state := CANCELLED, completedAt := some now }], acc.2 + 1)
      simp only [List.foldl_cons, killStep, hx, if_false]
      simp [h.1, h.2, List.countP_cons, hx, killOne]
      omega

theorem kill_intents (e : MockState) (now : Nat) :
    (MockState.kill e now).1.intents = e.intents.map (killOne now)
    ∧ (MockState.kill e now).2.1 = e.intents.countP (fun r => !isTerminal r.state) := by
  have h := killStep_fold now e.intents ([], 0)
  simp only [MockState.kill]
  exact ⟨by simpa using h.1, by simpa using h.2⟩

theorem killOne_events (now : Nat) (r : StoredIntent) :
    (killOne now r).events = r.events := by
  unfold killOne
  split <;> rfl

theorem killOne_not_pending (now : Nat) (r : StoredIntent) :
    ((killOne now r).state == PENDING) = false := by
  rcases r with ⟨id, out, s, ev, c, ca, o⟩
  cases s <;> simp [killOne, isTerminal]

theorem killOne_not_executing (now : Nat) (r : StoredIntent) :
    executingStates.contains (killOne now r).state = false := by
  rcases r with ⟨id, out, s, ev, c, ca, o⟩
  cases s <;> simp [killOne, isTerminal, executingStates]

end Nexwave

namespace Nexwave

open ExecutionState

-- ─── C5: kill sweeps all non-terminal intents ───────────────────────────────

/-- C5 counterexample: `kill` moves the pending intent to `CANCELLED` but
appends no cancellation Transition Event — its event log is unchanged and
contains no event of type CANCELLED. -/
theorem c5_counterexample :
    ((MockState.kill oneIntentEngine 7).1.intents.map (fun r => r.state)) = [CANCELLED]
    ∧ ((MockState.kill oneIntentEngine 7).1.intents.map (fun r => r.events)) =
        [sampleRecord.events]
    ∧ (sampleRecord.events.countP (fun ev => ev.type == "CANCELLED")) = 0 := by
  decide

/-- C5 corrected: `kill` turns every intent that was non-terminal at kill
time into a `CANCELLED` record with `completedAt` set, leaves terminal
records untouched, and returns as `executionsKilled` exactly the number of
non-terminal intents (each record contributes at most once, positionally);
but, unlike `cancel`, it appends no cancellation event — every record keeps
exactly its previous event log — and it issues no notification. -/
theorem c5_kill_sweep (e : MockState) (now : Nat) :
    (MockState.kill e now).2.1 = e.intents.countP (fun r => !isTerminal r.state)
    ∧ List.Forall₂ (fun r r' =>
        (isTerminal r.state = false →
          r'.state = CANCELLED ∧ r'.completedAt = some now ∧ r'.events = r.events
            ∧ r'.outcome = r.outcome ∧ r'.id = r.id)
        ∧ (isTerminal r.state = true → r' = r))
      e.intents (MockState.kill e now).1.intents
    ∧ (MockState.kill e now).1.intents.map (fun r => r.events) =
        e.intents.map (fun r => r.events) := by
  obtain ⟨hmap, hcount⟩ := kill_intents e now
  refine ⟨hcount, ?_, ?_⟩
  · rw [hmap, List.forall₂_map_right_iff, List.forall₂_same]
    intro r _
    constructor
    · intro hnt
      simp [killOne, hnt]
    · intro ht
      simp [killOne, ht]
  · rw [hmap, List.map_map]
    have : ((fun r : StoredIntent => r.events) ∘ killOne now) =
        (fun r : StoredIntent => r.events) := by
      funext r
      exact killOne_events now r
    rw [this]

/-- Witness for C5 (corrected) on the one-intent engine. -/
theorem c5_kill_sweep_witness :
    (MockState.kill oneIntentEngine 7).2.1 =
      oneIntentEngine.intents.countP (fun r => !isTerminal r.state)
    ∧ List.Forall₂ (fun r r' =>
        (isTerminal r.state = false →
          r'.state = CANCELLED ∧ r'.completedAt = some 7 ∧ r'.events = r.events
            ∧ r'.outcome = r.outcome ∧ r'.id = r.id)
        ∧ (isTerminal r.state = true → r' = r))
      oneIntentEngine.intents (MockState.kill oneIntentEngine 7).1.intents
    ∧ (MockState.kill oneIntentEngine 7).1.intents.map (fun r => r.events) =
        oneIntentEngine.intents.map (fun r => r.events) :=
  c5_kill_sweep oneIntentEngine 7

-- ─── C9: queue is empty after kill; totalCount ──────────────────────────────

/-- C9 counterexample: `totalCount` as reported by the list endpoint for the
query filtered on `PENDING` drops from 1 to 0 across a `kill`. -/
theorem c9_counterexample :
    listTotalCount oneIntentEngine (some [PENDING]) none none = 1
    ∧ listTotalCount (MockState.kill oneIntentEngine 7).1 (some [PENDING]) none none = 0 := by
  decide

end Nexwave
namespace Nexwave

open ExecutionState

-- ─── Sorting lemmas for the list query ──────────────────────────────────────

theorem length_insertCreatedDesc (x : StoredIntent) (l : List StoredIntent) :
    (insertCreatedDesc x l).length = l.length + 1 := by
  induction l with
  | nil => rfl
  | cons y ys ih =>
    by_cases h : y.createdAt ≤ x.createdAt <;> simp [insertCreatedDesc, h, ih]

theorem length_sortCreatedDesc (l : List StoredIntent) :
    (sortCreatedDesc l).length = l.length := by
  induction l with
  | nil => rfl
  | cons x xs ih => simp [sortCreatedDesc, length_insertCreatedDesc, ih]

theorem mem_insertCreatedDesc {x b : StoredIntent} {l : List StoredIntent} :
    b ∈ insertCreatedDesc x l ↔ b = x ∨ b ∈ l := by
  induction l with
  | nil => simp [insertCreatedDesc]
  | cons y ys ih =>
    by_cases h : y.createdAt ≤ x.createdAt
    · simp [insertCreatedDesc, h]
    · simp only [insertCreatedDesc, h, if_false, List.mem_cons, ih]
      tauto

theorem sorted_insertCreatedDesc (x : StoredIntent) (l : List StoredIntent)
    (h : List.Sorted (fun a b => b.createdAt ≤ a.createdAt) l) :
    List.Sorted (fun a b => b.createdAt ≤ a.createdAt) (insertCreatedDesc x l) := by
  induction l with
  | nil => simp [insertCreatedDesc]
  | cons y ys ih =>
    rw [List.sorted_cons] at h
    by_cases hc : y.createdAt ≤ x.createdAt
    · rw [insertCreatedDesc, if_pos hc]
      refine List.sorted_cons.mpr ⟨?_, List.sorted_cons.mpr h⟩
      intro b hb
      rcases List.mem_cons.mp hb with hb | hb
      · exact hb ▸ hc
      · exact le_trans (h.1 b hb) hc
    · rw [insertCreatedDesc, if_neg hc]
      refine List.sorted_cons.mpr ⟨?_, ih h.2⟩
      intro b hb
      rcases mem_insertCreatedDesc.mp hb with hb | hb
      · exact hb ▸ le_of_lt (lt_of_not_le hc)
      · exact h.1 b hb

theorem sorted_sortCreatedDesc (l : List StoredIntent) :
    List.Sorted (fun a b => b.createdAt ≤ a.createdAt) (sortCreatedDesc l) := by
  induction l with
  | nil => simp [sortCreatedDesc]
  | cons x xs ih => exact sorted_insertCreatedDesc x _ ih

-- ─── C9: queue empty after kill; unfiltered totalCount preserved ────────────

/-- C9 corrected: immediately after `kill`, `getQueueStatus` reports zero
pending and zero executing intents, and for every list query without a
states filter the reported `totalCount` is exactly the same as before the
kill (hence not smaller); a query filtered on non-terminal states can see
its `totalCount` decrease (see the counterexample). -/
theorem c9_kill_queue (e : MockState) (now : Nat) (limit cursor : Option Nat) :
    (getQueueStatus (MockState.kill e now).1).pendingIntents = 0
    ∧ (getQueueStatus (MockState.kill e now).1).executingIntents = 0
    ∧ listTotalCount (MockState.kill e now).1 none limit cursor =
        listTotalCount e none limit cursor := by
  obtain ⟨hmap, -⟩ := kill_intents e now
  refine ⟨?_, ?_, ?_⟩
  · simp only [getQueueStatus, hmap, List.countP_map]
    refine List.countP_eq_zero.mpr ?_
    intro r _
    simp [Function.comp, killOne_not_pending]
  · simp only [getQueueStatus, hmap, List.countP_map]
    refine List.countP_eq_zero.mpr ?_
    intro r _
    simpa [Function.comp] using killOne_not_executing now r
  · simp only [listTotalCount, listIntents, listResults, hmap]
    rw [List.length_take, List.length_take, List.length_drop, List.length_drop,
      length_sortCreatedDesc, length_sortCreatedDesc, List.length_map]

-- ─── C4: cancel on a terminal intent ────────────────────────────────────────

/-- C4 counterexample: cancelling an intent that is already `CANCELLED` is
not a no-op — it appends a second cancellation event and overwrites
`completedAt`. -/
theorem c4_counterexample :
    (cancelBody cancelledRecord 5).1.events ≠ cancelledRecord.events
    ∧ (cancelBody cancelledRecord 5).1.completedAt ≠ cancelledRecord.completedAt := by
  decide

/-- C4 corrected: `cancel` on a `COMPLETED` or `FAILED` intent is an
idempotent no-op — the record (event log, `completedAt`, outcome included)
is returned unchanged and no notification is issued, so repeated calls
report the same final state; but on an already-`CANCELLED` intent it
appends another cancellation event and overwrites `completedAt`, keeping
the state `CANCELLED` and never touching the outcome. -/
theorem c4_cancel_terminal :
    (∀ (r : StoredIntent) (now : Nat), r.state = COMPLETED ∨ r.state = FAILED →
      cancelBody r now = (r, []))
    ∧ (∀ (r : StoredIntent) (now : Nat), r.state = CANCELLED →
        (cancelBody r now).1.state = CANCELLED
        ∧ (cancelBody r now).1.outcome = r.outcome
        ∧ (cancelBody r now).1.events =
            r.events ++ [⟨"SUBMISSION", "CANCELLED", "Intent cancelled by user", now⟩]
        ∧ (cancelBody r now).1.completedAt = some now) := by
  constructor
  · intro r now h
    unfold cancelBody
    rw [if_pos h]
  · intro r now h
    have hn : ¬(r.state = COMPLETED ∨ r.state = FAILED) := by simp [h]
    unfold cancelBody
    rw [if_neg hn]
    exact ⟨rfl, rfl, rfl, rfl⟩

/-- Witness for C4 (corrected) on a completed and a cancelled record. -/
theorem c4_cancel_terminal_witness :
    cancelBody completedRecord 5 = (completedRecord, [])
    ∧ ((cancelBody cancelledRecord 5).1.state = CANCELLED
      ∧ (cancelBody cancelledRecord 5).1.outcome = cancelledRecord.outcome
      ∧ (cancelBody cancelledRecord 5).1.events = cancelledRecord.events ++
          [⟨"SUBMISSION", "CANCELLED", "Intent cancelled by user", 5⟩]
      ∧ (cancelBody cancelledRecord 5).1.completedAt = some 5) :=
  ⟨c4_cancel_terminal.1 completedRecord 5 (by decide),
   c4_cancel_terminal.2 cancelledRecord 5 (by decide)⟩

end Nexwave
namespace Nexwave

open ExecutionState

-- ─── C2: transition integrity ───────────────────────────────────────────────

/-- C2 counterexample: `kill` leaves the swept record's state inconsistent
with its event log — the record ends `CANCELLED` while its log still ends
with the creation event and gains no entry. -/
theorem c2_counterexample :
    ((MockState.kill oneIntentEngine 7).1.intents.map (fun r => r.state)) = [CANCELLED]
    ∧ ((MockState.kill oneIntentEngine 7).1.intents.map (fun r => consistentB r)) = [false]
    ∧ ((MockState.kill oneIntentEngine 7).1.intents.map (fun r => r.events.length)) =
        [sampleRecord.events.length] := by
  decide

/-- C2 corrected: record creation establishes the state/event-log
consistency invariant, and every transition performed by the driver
(stage step or completion) or by `cancel` preserves it, appends exactly one
Transition Event (the log is only ever extended) and issues exactly one
notification carrying that event for the intent's subscribers; `kill`,
however, changes states without appending any event (all logs are
unchanged) and without notifying, breaking the consistency invariant. -/
theorem c2_transition_integrity :
    (∀ (id : String) (output : Asset) (now : Nat),
      consistentB (newIntentRecord id output now) = true)
    ∧ (∀ (r : StoredIntent) (s : ExecutionState) (msg : String) (draw : ℚ) (now : Nat),
        consistentB r = true → s ∈ executingStates →
        consistentB (stageBody r s msg draw now).1 = true
        ∧ ((stageBody r s msg draw now).1 = r ∧ (stageBody r s msg draw now).2.1 = []
          ∨ ∃ ev, (stageBody r s msg draw now).1.events = r.events ++ [ev]
              ∧ (stageBody r s msg draw now).2.1 =
                  [⟨r.id, (stageBody r s msg draw now).1.state, some ev, now⟩]))
    ∧ (∀ (r : StoredIntent) (now : Nat), consistentB r = true →
        consistentB (completeBody r now).1 = true
        ∧ ((completeBody r now).1 = r ∧ (completeBody r now).2 = []
          ∨ ∃ ev, (completeBody r now).1.events = r.events ++ [ev]
              ∧ (completeBody r now).2 = [⟨r.id, COMPLETED, some ev, now⟩]))
    ∧ (∀ (r : StoredIntent) (now : Nat), consistentB r = true →
        consistentB (cancelBody r now).1 = true
        ∧ ((cancelBody r now).1 = r ∧ (cancelBody r now).2 = []
          ∨ ∃ ev, (cancelBody r now).1.events = r.events ++ [ev]
              ∧ (cancelBody r now).2 = [⟨r.id, CANCELLED, some ev, now⟩]))
    ∧ (∀ (e : MockState) (now : Nat),
        (MockState.kill e now).1.intents.map (fun r => r.events.length) =
          e.intents.map (fun r => r.events.length)) := by
  refine ⟨?_, ?_, ?_, ?_, ?_⟩
  · intro id output now
    simp [consistentB, newIntentRecord, matchesState]
  · intro r s msg draw now hc hs
    by_cases hcan : r.state = CANCELLED
    · exact ⟨by simpa [stageBody, hcan] using hc, Or.inl (by simp [stageBody, hcan])⟩
    · by_cases hfail : draw < mkRat 1 20 ∧ s ≠ VALIDATING
      · have hstep : stageBody r s msg draw now =
            ({ r with
                state := FAILED
                completedAt := some now
                events := r.events ++
                  [⟨stateName s, "FAILED", "Simulated failure at " ++ stateName s, now⟩] },
             [⟨r.id, FAILED,
                some ⟨stateName s, "FAILED", "Simulated failure at " ++ stateName s, now⟩,
                now⟩],
             false) := by
          simp [stageBody, hcan, hfail]
        rw [hstep]
        refine ⟨?_, Or.inr ⟨_, rfl, rfl⟩⟩
        simp [consistentB, List.getLast?_concat, matchesState]
      · have hstep : stageBody r s msg draw now =
            ({ r with
                state := s
                events := r.events ++ [⟨stateName s, "STATE_CHANGE", msg, now⟩] },
             [⟨r.id, s, some ⟨stateName s, "STATE_CHANGE", msg, now⟩, now⟩],
             true) := by
          simp [stageBody, hcan, hfail]
        rw [hstep]
        refine ⟨?_, Or.inr ⟨_, rfl, rfl⟩⟩
        simp only [executingStates, List.mem_cons, List.not_mem_nil, or_false] at hs
        rcases hs with h | h | h | h | h | h <;> subst h <;>
          simp [consistentB, List.getLast?_concat, matchesState, stateName]
  · intro r now hc
    by_cases hcan : r.state = CANCELLED
    · exact ⟨by simpa [completeBody, hcan] using hc, Or.inl (by simp [completeBody, hcan])⟩
    · have hstep : completeBody r now =
          ({ r with
              state := COMPLETED
              completedAt := some now
              outcome := some ⟨true, r.output, "526180000000", "5000", 25,
                "mock-tx-" ++ r.id.take 8⟩
              events := r.events ++
                [⟨"VERIFICATION", "COMPLETED", "Execution completed successfully", now⟩] },
           [⟨r.id, COMPLETED,
              some ⟨"VERIFICATION", "COMPLETED", "Execution completed successfully", now⟩,
              now⟩]) := by
        simp [completeBody, hcan]
      rw [hstep]
      refine ⟨?_, Or.inr ⟨_, rfl, rfl⟩⟩
      simp [consistentB, List.getLast?_concat, matchesState]
  · intro r now hc
    by_cases hterm : r.state = COMPLETED ∨ r.state = FAILED
    · exact ⟨by simpa [cancelBody, hterm] using hc, Or.inl (by simp [cancelBody, hterm])⟩
    · have hstep : cancelBody r now =
          ({ r with
              state := CANCELLED
              completedAt := some now
              events := r.events ++
                [⟨"SUBMISSION", "CANCELLED", "Intent cancelled by user", now⟩] },
           [⟨r.id, CANCELLED,
              some ⟨"SUBMISSION", "CANCELLED", "Intent cancelled by user", now⟩, now⟩]) := by
        simp [cancelBody, hterm]
      rw [hstep]
      refine ⟨?_, Or.inr ⟨_, rfl, rfl⟩⟩
      simp [consistentB, List.getLast?_concat, matchesState]
  · intro e now
    obtain ⟨hmap, -⟩ := kill_intents e now
    rw [hmap, List.map_map]
    have : ((fun r : StoredIntent => r.events.length) ∘ killOne now) =
        (fun r : StoredIntent => r.events.length) := by
      funext r
      simp [killOne_events]
    rw [this]

/-- Witness for C2 (corrected) on concrete records and the one-intent
engine. -/
theorem c2_transition_integrity_witness :
    consistentB (newIntentRecord "a" solAsset 0) = true
    ∧ (consistentB (stageBody sampleRecord PLANNING "m" 1 5).1 = true
      ∧ ((stageBody sampleRecord PLANNING "m" 1 5).1 = sampleRecord
          ∧ (stageBody sampleRecord PLANNING "m" 1 5).2.1 = []
        ∨ ∃ ev, (stageBody sampleRecord PLANNING "m" 1 5).1.events =
              sampleRecord.events ++ [ev]
            ∧ (stageBody sampleRecord PLANNING "m" 1 5).2.1 =
                [⟨sampleRecord.id, (stageBody sampleRecord PLANNING "m" 1 5).1.state,
                  some ev, 5⟩]))
    ∧ (consistentB (completeBody sampleRecord 5).1 = true
      ∧ ((completeBody sampleRecord 5).1 = sampleRecord
          ∧ (completeBody sampleRecord 5).2 = []
        ∨ ∃ ev, (completeBody sampleRecord 5).1.events = sampleRecord.events ++ [ev]
            ∧ (completeBody sampleRecord 5).2 = [⟨sampleRecord.id, COMPLETED, some ev, 5⟩]))
    ∧ (consistentB (cancelBody sampleRecord 5).1 = true
      ∧ ((cancelBody sampleRecord 5).1 = sampleRecord ∧ (cancelBody sampleRecord 5).2 = []
        ∨ ∃ ev, (cancelBody sampleRecord 5).1.events = sampleRecord.events ++ [ev]
            ∧ (cancelBody sampleRecord 5).2 = [⟨sampleRecord.id, CANCELLED, some ev, 5⟩]))
    ∧ (MockState.kill oneIntentEngine 7).1.intents.map (fun r => r.events.length) =
        oneIntentEngine.intents.map (fun r => r.events.length) :=
  ⟨c2_transition_integrity.1 "a" solAsset 0,
   c2_transition_integrity.2.1 sampleRecord PLANNING "m" 1 5 (by decide) (by decide),
   c2_transition_integrity.2.2.1 sampleRecord 5 (by decide),
   c2_transition_integrity.2.2.2.1 sampleRecord 5 (by decide),
   c2_transition_integrity.2.2.2.2 oneIntentEngine 7⟩

end Nexwave
namespace Nexwave

open ExecutionState

-- ─── C7: the watch stream ───────────────────────────────────────────────────

/-- Frames produced for a run of non-terminal notifications: one message
frame each, no end-of-stream marker. -/
theorem watch_frames_nonterminal (l : List Notification)
    (h : ∀ n ∈ l, isTerminal n.state = false) :
    (l.flatMap fun n =>
      if isTerminal n.state then [StreamItem.msg n, StreamItem.done]
      else [StreamItem.msg n]) = l.map StreamItem.msg := by
  induction l with
  | nil => rfl
  | cons x xs ih =>
    have hx := h x (List.mem_cons_self _ _)
    have hxs := ih (fun y hy => h y (List.mem_cons_of_mem _ hy))
    simp [hx, hxs]

/-- C7: a subscriber connecting to a terminal intent receives exactly one
event (the record's last transition) followed by the end-of-stream marker
and nothing else, whatever happens afterwards; a subscriber connecting to a
non-terminal intent receives the current latest event, then every
subsequent transition in order, then the end-of-stream marker right after
the terminal transition. -/
theorem c7_watch_contract :
    (∀ (r : StoredIntent) (subs : List Notification) (now : Nat),
      isTerminal r.state = true →
      watchStream r subs now = [StreamItem.msg (snapshotOf r now), StreamItem.done])
    ∧ (∀ (r : StoredIntent) (pre : List Notification) (lastN : Notification) (now : Nat),
        isTerminal r.state = false → (∀ n ∈ pre, isTerminal n.state = false) →
        isTerminal lastN.state = true →
        watchStream r (pre ++ [lastN]) now =
          StreamItem.msg (snapshotOf r now) ::
            (pre.map StreamItem.msg ++ [StreamItem.msg lastN, StreamItem.done])) := by
  constructor
  · intro r subs now h
    simp [watchStream, h]
  · intro r pre lastN now hr hpre hlast
    simp only [watchStream, hr, Bool.false_eq_true, if_false]
    rw [List.flatMap_append, watch_frames_nonterminal pre hpre]
    simp [hlast]

/-- Witness for C7 on a cancelled record (terminal connect) and a pending
record watched through one intermediate and one terminal notification. -/
theorem c7_watch_contract_witness :
    watchStream cancelledRecord [sampleNote] 9 =
      [StreamItem.msg (snapshotOf cancelledRecord 9), StreamItem.done]
    ∧ watchStream sampleRecord ([sampleNote] ++ [doneNote]) 9 =
      StreamItem.msg (snapshotOf sampleRecord 9) ::
        ([sampleNote].map StreamItem.msg ++ [StreamItem.msg doneNote, StreamItem.done]) :=
  ⟨c7_watch_contract.1 cancelledRecord [sampleNote] 9 (by decide),
   c7_watch_contract.2 sampleRecord [sampleNote] doneNote 9 (by decide) (by decide)
     (by decide)⟩

-- ─── C10: list pagination ───────────────────────────────────────────────────

theorem sorted_listResults (e : MockState) (states : Option (List ExecutionState)) :
    List.Sorted (fun a b => b.createdAt ≤ a.createdAt) (listResults e states) :=
  sorted_sortCreatedDesc _

/-- C10: every page returned by `listIntents` is sorted by `createdAt`
descending (newest first), holds at most `limit` records (20 when no limit
is supplied), and `nextCursor` is present exactly when matching records
remain beyond the returned page. -/
theorem c10_list_page (e : MockState) (states : Option (List ExecutionState))
    (limit cursor : Option Nat) :
    List.Sorted (fun a b => b.createdAt ≤ a.createdAt)
      (listIntents e states limit cursor).1
    ∧ (listIntents e states limit cursor).1.length ≤ limit.getD 20
    ∧ ((listIntents e states limit cursor).2.isSome ↔
        (listResults e states).drop (cursor.getD 0 + limit.getD 20) ≠ []) := by
  refine ⟨?_, ?_, ?_⟩
  · exact (sorted_listResults e states).sublist
      ((List.take_sublist _ _).trans (List.drop_sublist _ _))
  · simp only [listIntents]
    rw [List.length_take]
    exact min_le_left _ _
  · simp only [listIntents]
    by_cases h : cursor.getD 0 + limit.getD 20 < (listResults e states).length
    · simp [h, List.drop_eq_nil_iff]
    · simp [h, List.drop_eq_nil_iff]

end Nexwave
